import Mathlib

/-!
Verification of the InGameTimeSpent mod
(src/InGameTimeSpent/mod_ingametimespent.py).

The embedding models the session-phase state machine
(ClientLoadingState, LobbyLoadedState, ArenaLoadedState over
GameStateBase), the in-memory history cache, the sqlite-backed Database
and the HistoricStats aggregator.

Modelling conventions:
- Wall-clock reads (int(time.time() * 1000)) are an explicit millisecond
  timestamp argument passed to each operation.
- Calendar conversion (datetime.datetime.fromtimestamp followed by
  comparing year and month against datetime.datetime.now()) is an
  explicit function from a millisecond timestamp to a (year, month)
  pair, together with the current (year, month) pair.
- SQLite REAL arithmetic (row durations and averages) is modelled with
  exact rationals.
- Python exceptions are modelled with Except.  sqlite3.connect is called
  outside the try block of Database._execute_on_db, so a connection
  failure propagates to the caller (the StorageUnavailable error of the
  spec); a failure of cursor.execute or of the callback is caught inside
  the try block and only makes _execute_on_db return False.
-/

namespace WotMods

/-- GameStates.Names.BASE. -/
def NAME_BASE : String := "STATE_BASE"

/-- GameStates.Names.CLIENT_LOADING. -/
def NAME_CLIENT_LOADING : String := "STATE_CLIENT_LOADING"

/-- GameStates.Names.LOBBY_LOADED. -/
def NAME_LOBBY_LOADED : String := "STATE_LOBBY_LOADED"

/-- GameStates.Names.ARENA_LOADED. -/
def NAME_ARENA_LOADED : String := "STATE_ARENA_LOADED"

/-- Database.DataRow.STATE_LOADING. -/
def STATE_LOADING : String := "LOADING"

/-- Database.DataRow.STATE_LOBBY. -/
def STATE_LOBBY : String := "LOBBY"

/-- Database.DataRow.STATE_ARENA. -/
def STATE_ARENA : String := "ARENA"

/-- The three concrete state classes of the machine
(ClientLoadingState, LobbyLoadedState, ArenaLoadedState). -/
inductive StateKind
  | clientLoading
  | lobbyLoaded
  | arenaLoaded
deriving DecidableEq, Repr

/-- STATE_NAME of each concrete state class. -/
def stateName : StateKind → String
  | .clientLoading => NAME_CLIENT_LOADING
  | .lobbyLoaded => NAME_LOBBY_LOADED
  | .arenaLoaded => NAME_ARENA_LOADED

/-- StateData: timestamps in ms since epoch (0 means not set) plus the
state name recorded at construction. -/
structure StateData where
  start_timestamp : Nat
  stop_timestamp : Nat
  state_name : String
deriving DecidableEq, Repr

/-- A state object: its class (kind), its StateData, and
ArenaLoadedState._veh_destroyed_timestamp (0 and unused for the other
two classes). -/
structure StateObj where
  kind : StateKind
  data : StateData
  vehDestroyedTimestamp : Nat
deriving DecidableEq, Repr

/-- Construction of a concrete state object:
GameStateBase.__init__ builds StateData(name=self.STATE_NAME) with both
timestamps 0; ArenaLoadedState.__init__ additionally zeroes
_veh_destroyed_timestamp. -/
def mkState (k : StateKind) : StateObj :=
  { kind := k
    data := { start_timestamp := 0, stop_timestamp := 0, state_name := stateName k }
    vehDestroyedTimestamp := 0 }

/-- GameStateBase._start: record the current time unless the start
timestamp is already set. -/
def startTimer (s : StateObj) (now : Nat) : StateObj :=
  if s.data.start_timestamp > 0 then s
  else { s with data := { s.data with start_timestamp := now } }

/-- GameStateBase._stop, including the ArenaLoadedState._stop override
which afterwards copies the stop timestamp into
_veh_destroyed_timestamp. -/
def stopTimer (s : StateObj) (now : Nat) : StateObj :=
  let s1 := if s.data.stop_timestamp > 0 then s
            else { s with data := { s.data with stop_timestamp := now } }
  match s.kind with
  | .arenaLoaded => { s1 with vehDestroyedTimestamp := s1.data.stop_timestamp }
  | _ => s1

/-- BadStateException, carrying the method and class names of
GameStateBase._bad_state_exception. -/
structure BadStateException where
  methodName : String
  className : String
deriving DecidableEq, Repr

/-- Database.DataRow: a row of the WOT_GAME_TIME table. -/
structure DataRow where
  wot_trace_id : Int
  date : Nat
  duration : Int
  game_state : String
  param1 : String
  param2 : String
  param3 : String
  param4 : String
deriving DecidableEq, Repr

/-- Database._game_state_data_to_table_row. -/
def game_state_data_to_table_row (sd : StateData) : DataRow :=
  { wot_trace_id := -1
    date := sd.start_timestamp
    duration := (sd.stop_timestamp : Int) - (sd.start_timestamp : Int)
    game_state := sd.state_name
    param1 := "param1"
    param2 := "param2"
    param3 := "param3"
    param4 := "param4" }

/-- The error raised when sqlite3.connect fails inside Database._connect
(the StorageUnavailable error of the spec); it escapes
Database._execute_on_db because _connect is called before its try
block. -/
inductive DbError
  | storageUnavailable
deriving DecidableEq, Repr

/-- The Database object and its backing medium.  fresh_database is the
flag computed once in Database.__init__ (and never updated afterwards);
connect_fails models sqlite3.connect raising; query_fails models
cursor.execute (or the callback) raising, which Database._execute_on_db
catches and turns into a False result. -/
structure Database where
  rows : List DataRow
  fresh_database : Bool
  connect_fails : Bool
  query_fails : Bool
deriving DecidableEq, Repr

/-- Database.load_data.  On a fresh database it runs the CREATE TABLE
statement and returns the empty list without reading rows; otherwise it
selects all rows.  A connection failure propagates; an execute failure
is swallowed by _execute_on_db, leaving the local data list empty. -/
def load_data (db : Database) : Except DbError (List DataRow) :=
  if db.fresh_database then
    if db.connect_fails then .error .storageUnavailable else .ok []
  else if db.connect_fails then .error .storageUnavailable
  else if db.query_fails then .ok []
  else .ok db.rows

/-- Database.commit: build one multi-row INSERT statement from the
cached state objects and execute it, committing the transaction in the
callback.  With an empty list the generated SQL is malformed (VALUES
with no rows), so the execute step fails and commit returns False with
the rows unchanged; any other execute/commit failure likewise leaves
the store unchanged because the transaction is never committed (the
connection is closed without commit, rolling back).  Returns the
resulting database and the is_ok flag of _execute_on_db. -/
def db_commit (db : Database) (data_list : List StateObj) :
    Except DbError (Database × Bool) :=
  if db.connect_fails then .error .storageUnavailable
  else if data_list.isEmpty || db.query_fails then .ok (db, false)
  else .ok ({ db with
      rows := db.rows ++ data_list.map (fun s => game_state_data_to_table_row s.data) },
    true)

/-- HistoricStats: the accumulator/average fields of the aggregator.
Counters are Python ints (Nat); sums and averages are sqlite REAL
values, modelled as exact rationals. -/
structure HistoricStats where
  data : List DataRow
  all_time_avg_time_spent : Rat
  all_time_avg_game_loading : Rat
  all_time_loading_counter : Nat
  all_time_avg_game_lobby : Rat
  all_time_lobby_counter : Nat
  all_time_avg_game_arena : Rat
  all_time_arena_counter : Nat
  curr_month_avg_time_spent : Rat
  curr_month_counter : Nat
  curr_month_avg_game_loading : Rat
  curr_month_loading_counter : Nat
  curr_month_avg_game_lobby : Rat
  curr_month_lobby_counter : Nat
  curr_month_avg_game_arena : Rat
  curr_month_arena_counter : Nat
deriving DecidableEq, Repr

/-- HistoricStats.__init__: empty data and every accumulator zero. -/
def statsInit : HistoricStats :=
  { data := []
    all_time_avg_time_spent := 0
    all_time_avg_game_loading := 0
    all_time_loading_counter := 0
    all_time_avg_game_lobby := 0
    all_time_lobby_counter := 0
    all_time_avg_game_arena := 0
    all_time_arena_counter := 0
    curr_month_avg_time_spent := 0
    curr_month_counter := 0
    curr_month_avg_game_loading := 0
    curr_month_loading_counter := 0
    curr_month_avg_game_lobby := 0
    curr_month_lobby_counter := 0
    curr_month_avg_game_arena := 0
    curr_month_arena_counter := 0 }

/-- One iteration of the accumulation loop of
HistoricStats.calculate_stats over a single row.  nowYM is the current
(year, month) from datetime.datetime.now(); ym converts a stored
millisecond timestamp to its (year, month) as
HistoricStats._get_date does. -/
def accum (nowYM : Nat × Nat) (ym : Nat → Nat × Nat)
    (h : HistoricStats) (row : DataRow) : HistoricStats :=
  let h := { h with
    all_time_avg_time_spent := h.all_time_avg_time_spent + (row.duration : Rat) }
  let h := if row.game_state = STATE_LOADING then
      { h with
        all_time_avg_game_loading := h.all_time_avg_game_loading + (row.duration : Rat),
        all_time_loading_counter := h.all_time_loading_counter + 1 }
    else h
  let h := if row.game_state = STATE_LOBBY then
      { h with
        all_time_avg_game_lobby := h.all_time_avg_game_lobby + (row.duration : Rat),
        all_time_lobby_counter := h.all_time_lobby_counter + 1 }
    else h
  let h := if row.game_state = STATE_ARENA then
      { h with
        all_time_avg_game_arena := h.all_time_avg_game_arena + (row.duration : Rat),
        all_time_arena_counter := h.all_time_arena_counter + 1 }
    else h
  let d := ym row.date
  if d.1 = nowYM.1 ∧ d.2 = nowYM.2 then
    let h := { h with
      curr_month_avg_time_spent := h.curr_month_avg_time_spent + (row.duration : Rat),
      curr_month_counter := h.curr_month_counter + 1 }
    let h := if row.game_state = STATE_LOADING then
        { h with
          curr_month_avg_game_loading := h.curr_month_avg_game_loading + (row.duration : Rat),
          curr_month_loading_counter := h.curr_month_loading_counter + 1 }
      else h
    let h := if row.game_state = STATE_LOBBY then
        { h with
          curr_month_avg_game_lobby := h.curr_month_avg_game_lobby + (row.duration : Rat),
          curr_month_lobby_counter := h.curr_month_lobby_counter + 1 }
      else h
    if row.game_state = STATE_ARENA then
      { h with
        curr_month_avg_game_arena := h.curr_month_avg_game_arena + (row.duration : Rat),
        curr_month_arena_counter := h.curr_month_arena_counter + 1 }
    else h
  else h

/-- Division step: all_time_avg_time_spent divided by len(self._data). -/
def divOverall (h : HistoricStats) : HistoricStats :=
  { h with all_time_avg_time_spent :=
      h.all_time_avg_time_spent / (h.data.length : Rat) }

/-- Division step guarded by all_time_loading_counter being positive. -/
def divLoading (h : HistoricStats) : HistoricStats :=
  if h.all_time_loading_counter > 0 then
    { h with all_time_avg_game_loading :=
        h.all_time_avg_game_loading / (h.all_time_loading_counter : Rat) }
  else h

/-- Division step guarded by all_time_lobby_counter being positive. -/
def divLobby (h : HistoricStats) : HistoricStats :=
  if h.all_time_lobby_counter > 0 then
    { h with all_time_avg_game_lobby :=
        h.all_time_avg_game_lobby / (h.all_time_lobby_counter : Rat) }
  else h

/-- Division step guarded by all_time_arena_counter being positive. -/
def divArena (h : HistoricStats) : HistoricStats :=
  if h.all_time_arena_counter > 0 then
    { h with all_time_avg_game_arena :=
        h.all_time_avg_game_arena / (h.all_time_arena_counter : Rat) }
  else h

/-- Division step guarded by curr_month_counter being positive. -/
def divMonthOverall (h : HistoricStats) : HistoricStats :=
  if h.curr_month_counter > 0 then
    { h with curr_month_avg_time_spent :=
        h.curr_month_avg_time_spent / (h.curr_month_counter : Rat) }
  else h

/-- Division step guarded by curr_month_loading_counter being positive. -/
def divMonthLoading (h : HistoricStats) : HistoricStats :=
  if h.curr_month_loading_counter > 0 then
    { h with curr_month_avg_game_loading :=
        h.curr_month_avg_game_loading / (h.curr_month_loading_counter : Rat) }
  else h

/-- Division step guarded by curr_month_lobby_counter being positive. -/
def divMonthLobby (h : HistoricStats) : HistoricStats :=
  if h.curr_month_lobby_counter > 0 then
    { h with curr_month_avg_game_lobby :=
        h.curr_month_avg_game_lobby / (h.curr_month_lobby_counter : Rat) }
  else h

/-- Division step guarded by curr_month_arena_counter being positive. -/
def divMonthArena (h : HistoricStats) : HistoricStats :=
  if h.curr_month_arena_counter > 0 then
    { h with curr_month_avg_game_arena :=
        h.curr_month_avg_game_arena / (h.curr_month_arena_counter : Rat) }
  else h

/-- The division block of HistoricStats.calculate_stats, in source
order. -/
def applyDivisions (h : HistoricStats) : HistoricStats :=
  divMonthArena (divMonthLobby (divMonthLoading (divMonthOverall
    (divArena (divLobby (divLoading (divOverall h)))))))

/-- HistoricStats.calculate_stats: accumulate over self._data starting
from the current field values (the accumulators are NOT reset), then,
if the data list is non-empty, apply the guarded divisions. -/
def calculate_stats (nowYM : Nat × Nat) (ym : Nat → Nat × Nat)
    (h0 : HistoricStats) : HistoricStats :=
  let h := h0.data.foldl (accum nowYM ym) h0
  if h.data.length > 0 then applyDivisions h else h

/-- InGameTimeSpentMod: current state, the history cache, the Database
and the HistoricStats instance created in __init__. -/
structure Mod where
  state : StateObj
  state_history_cache : List StateObj
  database : Database
  historic_stats : HistoricStats
deriving DecidableEq, Repr

/-- InGameTimeSpentMod.__init__: initial state is a fresh
ClientLoadingState, the cache is empty and the stats are zeroed. -/
def freshMod (db : Database) : Mod :=
  { state := mkState .clientLoading
    state_history_cache := []
    database := db
    historic_stats := statsInit }

/-- GameStateBase._transition: stop the current state, append it to the
history cache (Context.save_state), start the freshly constructed next
state and install it as current (Context.set_state). -/
def transition (m : Mod) (next : StateKind) (now : Nat) : Mod :=
  let closed := stopTimer m.state now
  { m with
    state := startTimer (mkState next) now
    state_history_cache := m.state_history_cache ++ [closed] }

/-- The four trigger events of the mod
(on_client_started, on_lobby_loaded, on_arena_loaded,
on_veh_destroyed). -/
inductive Trigger
  | clientStarted
  | lobbyLoaded
  | arenaLoaded
  | vehDestroyed
deriving DecidableEq, Repr

/-- Dispatch of a trigger to the current state object, following the
bodies of ClientLoadingState, LobbyLoadedState and ArenaLoadedState.
ArenaLoadedState.on_veh_destroyed stores time.time() (seconds, not
milliseconds), hence the division by 1000. -/
def step (m : Mod) (tr : Trigger) (now : Nat) : Except BadStateException Mod :=
  match m.state.kind, tr with
  | .clientLoading, .clientStarted => .ok { m with state := startTimer m.state now }
  | .clientLoading, .lobbyLoaded => .ok (transition m .lobbyLoaded now)
  | .clientLoading, .arenaLoaded =>
      .error { methodName := "on_arena_loaded", className := "ClientLoadingState" }
  | .clientLoading, .vehDestroyed =>
      .error { methodName := "on_veh_destroyed", className := "ClientLoadingState" }
  | .lobbyLoaded, .clientStarted =>
      .error { methodName := "on_client_started", className := "LobbyLoadedState" }
  | .lobbyLoaded, .lobbyLoaded => .ok { m with state := startTimer m.state now }
  | .lobbyLoaded, .arenaLoaded => .ok (transition m .arenaLoaded now)
  | .lobbyLoaded, .vehDestroyed =>
      .error { methodName := "on_veh_destroyed", className := "LobbyLoadedState" }
  | .arenaLoaded, .clientStarted =>
      .error { methodName := "on_client_started", className := "ArenaLoadedState" }
  | .arenaLoaded, .lobbyLoaded => .ok (transition m .lobbyLoaded now)
  | .arenaLoaded, .arenaLoaded => .ok { m with state := startTimer m.state now }
  | .arenaLoaded, .vehDestroyed =>
      .ok (if m.state.vehDestroyedTimestamp > 0 then m
           else { m with state := { m.state with vehDestroyedTimestamp := now / 1000 } })

/-- A trigger call with Python exception semantics made explicit: on a
raise the controller object is unchanged, because every illegal handler
raises before assigning any field. -/
def applyTrigger (m : Mod) (tr : Trigger) (now : Nat) :
    Mod × Option BadStateException :=
  match step m tr now with
  | .ok m1 => (m1, none)
  | .error e => (m, some e)

/-- Run a list of trigger calls, each at its own timestamp, propagating
the first BadStateException. -/
def run (m : Mod) : List (Trigger × Nat) → Except BadStateException Mod
  | [] => .ok m
  | (tr, t) :: rest =>
    match step m tr t with
    | .ok m1 => run m1 rest
    | .error _e => .error _e

/-- Number of cross-state transitions performed by a run (steps whose
resulting current state class differs from the previous one). -/
def transCount (m : Mod) : List (Trigger × Nat) → Nat
  | [] => 0
  | (tr, t) :: rest =>
    match step m tr t with
    | .ok m1 => (if m1.state.kind = m.state.kind then 0 else 1) + transCount m1 rest
    | .error _ => 0

/-- GameStateBase.on_exit as invoked through
InGameTimeSpentMod.on_exit: stop the current state if not already
stopped and append it to the history cache. -/
def stateOnExit (m : Mod) (now : Nat) : Mod :=
  let closed := stopTimer m.state now
  { m with state := closed, state_history_cache := m.state_history_cache ++ [closed] }

/-- InGameTimeSpentMod.commit: push the cache to the database; if the
database reports failure, log and return leaving the cache intact;
on success clear the cache. -/
def mod_commit (m : Mod) : Except DbError Mod :=
  match db_commit m.database m.state_history_cache with
  | .error e => .error e
  | .ok (db1, true) => .ok { m with database := db1, state_history_cache := [] }
  | .ok (db1, false) => .ok { m with database := db1 }

/-- InGameTimeSpentMod.on_exit: close the current state then commit. -/
def mod_on_exit (m : Mod) (now : Nat) : Except DbError Mod :=
  mod_commit (stateOnExit m now)

/-- InGameTimeSpentMod.get_historic_stats: load the rows into the one
HistoricStats instance owned by the mod (set_data), run
calculate_stats on it and return it; a load error propagates. -/
def get_historic_stats (m : Mod) (nowYM : Nat × Nat) (ym : Nat → Nat × Nat) :
    Except DbError (Mod × HistoricStats) :=
  match load_data m.database with
  | .error e => .error e
  | .ok rows =>
      let h := calculate_stats nowYM ym { m.historic_stats with data := rows }
      .ok ({ m with historic_stats := h }, h)

/-- Stop timestamps of the cached records, in cache order. -/
def cacheStops (m : Mod) : List Nat :=
  m.state_history_cache.map (fun s => s.data.stop_timestamp)

/-- The timestamps of a trigger list are nondecreasing and bounded
below by b. -/
def timesMono (b : Nat) : List (Trigger × Nat) → Bool
  | [] => true
  | (_, t) :: rest => b ≤ t && timesMono t rest

/-- Timestamp of the last trigger call, or b for an empty list. -/
def lastTime (b : Nat) : List (Trigger × Nat) → Nat
  | [] => b
  | (_, t) :: rest => lastTime t rest

/-! Concrete inputs used by witnesses and counterexamples. -/

/-- A database whose backing file holds no table yet (the state of a
first run). -/
def emptyDb : Database :=
  { rows := [], fresh_database := true, connect_fails := false, query_fails := false }

/-- A reachable, valid-but-empty store: the table exists and holds no
rows, and the medium is healthy. -/
def emptyStoreDb : Database :=
  { rows := [], fresh_database := false, connect_fails := false, query_fails := false }

/-- A database whose write/read query step fails (caught by
_execute_on_db). -/
def queryFailDb : Database :=
  { rows := [], fresh_database := false, connect_fails := false, query_fails := true }

/-- A database whose sqlite3.connect call fails. -/
def connFailDb : Database :=
  { rows := [], fresh_database := false, connect_fails := true, query_fails := false }

/-- One persisted row: duration 1000, kind label LOADING, stored start
timestamp 5. -/
def rowL : DataRow :=
  { wot_trace_id := 1, date := 5, duration := 1000, game_state := "LOADING",
    param1 := "", param2 := "", param3 := "", param4 := "" }

/-- A store holding exactly rowL, with a healthy medium. -/
def oneRowDb : Database :=
  { rows := [rowL], fresh_database := false, connect_fails := false, query_fails := true }

/-- A healthy store holding exactly rowL. -/
def oneRowOkDb : Database :=
  { rows := [rowL], fresh_database := false, connect_fails := false, query_fails := false }

/-- Scenario B trigger sequence: lobby entered, active phase entered,
lobby entered, at times 1, 2, 3. -/
def trsB : List (Trigger × Nat) :=
  [(Trigger.lobbyLoaded, 1), (Trigger.arenaLoaded, 2), (Trigger.lobbyLoaded, 3)]

/-- The controller reached by scenario B before shutdown. -/
def modB : Mod := (run (freshMod emptyDb) trsB).toOption.getD (freshMod emptyDb)

/-- A controller in ClientLoadingState whose timer has been started
(on_client_started fired at time 5). -/
def startedCL : Mod :=
  (run (freshMod emptyDb) [(Trigger.clientStarted, 5)]).toOption.getD (freshMod emptyDb)

/-- A controller in ArenaLoadedState whose timer has been started and
whose vehicle-destroyed timestamp has been recorded. -/
def arenaVeh : Mod :=
  (run (freshMod emptyDb)
      [(Trigger.lobbyLoaded, 1), (Trigger.arenaLoaded, 2), (Trigger.vehDestroyed, 3000)]).toOption.getD
    (freshMod emptyDb)

/-! Helper lemmas about the state primitives. -/

@[simp]
lemma startTimer_kind (s : StateObj) (t : Nat) : (startTimer s t).kind = s.kind := by
  simp only [startTimer]; split <;> rfl

@[simp]
lemma startTimer_stop (s : StateObj) (t : Nat) :
    (startTimer s t).data.stop_timestamp = s.data.stop_timestamp := by
  simp only [startTimer]; split <;> rfl

@[simp]
lemma startTimer_name (s : StateObj) (t : Nat) :
    (startTimer s t).data.state_name = s.data.state_name := by
  simp only [startTimer]; split <;> rfl

@[simp]
lemma stopTimer_kind (s : StateObj) (t : Nat) : (stopTimer s t).kind = s.kind := by
  obtain ⟨k, d, v⟩ := s
  cases k <;> (simp only [stopTimer]; split <;> rfl)

@[simp]
lemma stopTimer_name (s : StateObj) (t : Nat) :
    (stopTimer s t).data.state_name = s.data.state_name := by
  obtain ⟨k, d, v⟩ := s
  cases k <;> (simp only [stopTimer]; split <;> rfl)

lemma stopTimer_stop (s : StateObj) (t : Nat) :
    (stopTimer s t).data.stop_timestamp
      = if s.data.stop_timestamp > 0 then s.data.stop_timestamp else t := by
  obtain ⟨k, d, v⟩ := s
  cases k <;> (simp only [stopTimer]; split <;> simp_all)

@[simp]
lemma transition_cache (m : Mod) (k : StateKind) (t : Nat) :
    (transition m k t).state_history_cache
      = m.state_history_cache ++ [stopTimer m.state t] := rfl

@[simp]
lemma transition_kind (m : Mod) (k : StateKind) (t : Nat) :
    (transition m k t).state.kind = k := by
  simp [transition, mkState]

@[simp]
lemma transition_state_stop (m : Mod) (k : StateKind) (t : Nat) :
    (transition m k t).state.data.stop_timestamp = 0 := by
  simp [transition, mkState]

/-- Each legal trigger call appends exactly one record to the cache if
it changes the current state class, and none otherwise. -/
lemma step_len {m m1 : Mod} {tr : Trigger} {t : Nat}
    (h : step m tr t = .ok m1) :
    m1.state_history_cache.length
      = m.state_history_cache.length
        + (if m1.state.kind = m.state.kind then 0 else 1) := by
  cases hk : m.state.kind <;> cases tr <;> simp [step, hk] at h
  all_goals subst h
  all_goals (split <;> simp_all)

/-- Cache length after a legal run equals the initial length plus the
number of cross-state transitions. -/
lemma run_len :
    ∀ (trs : List (Trigger × Nat)) (m m1 : Mod),
      run m trs = .ok m1 →
      m1.state_history_cache.length
        = m.state_history_cache.length + transCount m trs := by
  intro trs
  induction trs with
  | nil =>
      intro m m1 h
      simp only [run] at h
      injection h with h
      subst h
      simp [transCount]
  | cons p rest ih =>
      intro m m1 h
      obtain ⟨tr, t⟩ := p
      simp only [run] at h
      cases hs : step m tr t with
      | error e => rw [hs] at h; cases h
      | ok m2 =>
          rw [hs] at h
          have h2 := ih m2 m1 h
          have h3 := step_len hs
          simp only [transCount, hs]
          by_cases hk : m2.state.kind = m.state.kind <;> simp [hk] at h3 ⊢ <;> omega

@[simp]
lemma stateOnExit_cache (m : Mod) (now : Nat) :
    (stateOnExit m now).state_history_cache
      = m.state_history_cache ++ [stopTimer m.state now] := rfl

/-- Run invariant for chronological order: the live state is not yet
stopped, and the cached stop timestamps are bounded by b and
nondecreasing. -/
def Inv (b : Nat) (m : Mod) : Prop :=
  m.state.data.stop_timestamp = 0
  ∧ (∀ x ∈ cacheStops m, x ≤ b)
  ∧ List.Pairwise (· ≤ ·) (cacheStops m)

lemma inv_of_cache_eq {b t : Nat} {m m1 : Mod} (hi : Inv b m) (hbt : b ≤ t)
    (hc : m1.state_history_cache = m.state_history_cache)
    (hs : m1.state.data.stop_timestamp = m.state.data.stop_timestamp) :
    Inv t m1 := by
  obtain ⟨h0, hub, hpw⟩ := hi
  refine ⟨by rw [hs, h0], ?_, ?_⟩
  · intro x hx
    rw [cacheStops, hc] at hx
    exact le_trans (hub x hx) hbt
  · rw [cacheStops, hc]
    exact hpw

lemma inv_transition {b t : Nat} {m : Mod} (k : StateKind)
    (hi : Inv b m) (hbt : b ≤ t) : Inv t (transition m k t) := by
  obtain ⟨h0, hub, hpw⟩ := hi
  have hstop : (stopTimer m.state t).data.stop_timestamp = t := by
    rw [stopTimer_stop, h0]; simp
  have hrw : cacheStops (transition m k t) = cacheStops m ++ [t] := by
    simp [cacheStops, transition, hstop]
  refine ⟨by simp, ?_, ?_⟩
  · intro x hx
    rw [hrw, List.mem_append] at hx
    rcases hx with hx | hx
    · exact le_trans (hub x hx) hbt
    · simp at hx; omega
  · rw [hrw]
    refine List.pairwise_append.mpr ⟨hpw, by simp, ?_⟩
    intro a ha c hc
    simp at hc
    subst hc
    exact le_trans (hub a ha) hbt

/-- Each legal trigger call preserves the order invariant, advancing the
bound to the call's timestamp. -/
lemma step_inv {m m1 : Mod} {tr : Trigger} {b t : Nat}
    (hi : Inv b m) (hbt : b ≤ t) (h : step m tr t = .ok m1) : Inv t m1 := by
  cases hk : m.state.kind <;> cases tr <;> simp [step, hk] at h
  all_goals subst h
  all_goals try exact inv_of_cache_eq hi hbt rfl (by simp)
  all_goals try exact inv_transition _ hi hbt
  all_goals (split <;> exact inv_of_cache_eq hi hbt rfl rfl)

/-- A legal run with nondecreasing timestamps preserves the order
invariant up to the last timestamp. -/
lemma run_inv :
    ∀ (trs : List (Trigger × Nat)) (m m1 : Mod) (b : Nat),
      Inv b m → timesMono b trs = true → run m trs = .ok m1 →
      Inv (lastTime b trs) m1 := by
  intro trs
  induction trs with
  | nil =>
      intro m m1 b hi _ h
      simp only [run] at h
      injection h with h
      subst h
      exact hi
  | cons p rest ih =>
      intro m m1 b hi hmono h
      obtain ⟨tr, t⟩ := p
      simp only [timesMono, Bool.and_eq_true, decide_eq_true_eq] at hmono
      obtain ⟨hbt, hmono1⟩ := hmono
      simp only [run] at h
      cases hs : step m tr t with
      | error e => rw [hs] at h; cases h
      | ok m2 =>
          rw [hs] at h
          exact ih m2 m1 t (step_inv hi hbt hs) hmono1 h

/-- Claim C3: for every sequence of legal trigger calls on a fresh
controller followed by one shutdown flush, the history cache holds
exactly one record per cross-state transition plus one for the shutdown
flush; with nondecreasing call timestamps the cached records appear in
chronological close order (nondecreasing stop timestamps); and the
concrete scenario lobby_entered, active_phase_entered, lobby_entered,
shutdown yields exactly the 4 phases ClientLoading, LobbyLoaded,
ArenaLoaded, LobbyLoaded in that order. -/
theorem record_count_equals_transitions_plus_one :
    (∀ (db : Database) (trs : List (Trigger × Nat)) (m : Mod) (now : Nat),
        run (freshMod db) trs = .ok m →
        ((stateOnExit m now).state_history_cache.length
            = transCount (freshMod db) trs + 1
          ∧ (timesMono 0 trs = true → lastTime 0 trs ≤ now →
              List.Pairwise (· ≤ ·) (cacheStops (stateOnExit m now)))))
    ∧ (run (freshMod emptyDb) trsB).toOption.map
        (fun m => (stateOnExit m 4).state_history_cache.map (fun s => s.data.state_name))
        = some [NAME_CLIENT_LOADING, NAME_LOBBY_LOADED, NAME_ARENA_LOADED,
                NAME_LOBBY_LOADED] := by
  constructor
  · intro db trs m now hrun
    constructor
    · have h1 := run_len trs (freshMod db) m hrun
      have h2 : (freshMod db).state_history_cache.length = 0 := rfl
      rw [h2, Nat.zero_add] at h1
      simp [h1]
    · intro hmono hlast
      have hi0 : Inv 0 (freshMod db) := by
        refine ⟨rfl, ?_, ?_⟩ <;> simp [cacheStops, freshMod]
      have hinv := run_inv trs (freshMod db) m 0 hi0 hmono hrun
      obtain ⟨h0, hub, hpw⟩ := hinv
      have hstop : (stopTimer m.state now).data.stop_timestamp = now := by
        rw [stopTimer_stop, h0]; simp
      have hrw : cacheStops (stateOnExit m now) = cacheStops m ++ [now] := by
        simp [cacheStops, stateOnExit, hstop]
      rw [hrw]
      refine List.pairwise_append.mpr ⟨hpw, by simp, ?_⟩
      intro a ha c hc
      simp at hc
      subst hc
      exact le_trans (hub a ha) hlast
  · rfl

/-- Witness for C3: scenario B at times 1, 2, 3 with shutdown at 4
yields a 4-record cache matching the 3 cross-state transitions plus
one, in chronological close order. -/
theorem record_count_equals_transitions_plus_one_witness :
    run (freshMod emptyDb) trsB = .ok modB
    ∧ (stateOnExit modB 4).state_history_cache.length
        = transCount (freshMod emptyDb) trsB + 1
    ∧ timesMono 0 trsB = true
    ∧ lastTime 0 trsB ≤ 4
    ∧ List.Pairwise (· ≤ ·) (cacheStops (stateOnExit modB 4)) :=
  ⟨rfl,
   (record_count_equals_transitions_plus_one.1 emptyDb trsB modB 4 rfl).1,
   by decide,
   by decide,
   (record_count_equals_transitions_plus_one.1 emptyDb trsB modB 4 rfl).2
     (by decide) (by decide)⟩

/-- Claim C2: each of the five illegal (state, trigger) pairs —
arena_loaded in ClientLoading, started in LobbyLoaded, started in
ArenaLoaded, vehicle_destroyed in ClientLoading, vehicle_destroyed in
LobbyLoaded — raises a BadStateException naming the offending method
and class, and leaves the controller (current state, its timestamps,
and the history cache) unchanged: the trigger call returns the original
controller object alongside the raised exception. -/
theorem illegal_triggers_raise_and_preserve :
    ∀ (m : Mod) (now : Nat),
      (m.state.kind = StateKind.clientLoading →
          applyTrigger m .arenaLoaded now
            = (m, some { methodName := "on_arena_loaded", className := "ClientLoadingState" })
        ∧ applyTrigger m .vehDestroyed now
            = (m, some { methodName := "on_veh_destroyed", className := "ClientLoadingState" }))
      ∧ (m.state.kind = StateKind.lobbyLoaded →
          applyTrigger m .clientStarted now
            = (m, some { methodName := "on_client_started", className := "LobbyLoadedState" })
        ∧ applyTrigger m .vehDestroyed now
            = (m, some { methodName := "on_veh_destroyed", className := "LobbyLoadedState" }))
      ∧ (m.state.kind = StateKind.arenaLoaded →
          applyTrigger m .clientStarted now
            = (m, some { methodName := "on_client_started", className := "ArenaLoadedState" })) := by
  intro m now
  refine ⟨fun h => ⟨?_, ?_⟩, fun h => ⟨?_, ?_⟩, fun h => ?_⟩ <;>
    simp [applyTrigger, step, h]

/-- Witness for C2: on a fresh controller (in ClientLoadingState),
on_arena_loaded raises and leaves the controller unchanged. -/
theorem illegal_triggers_raise_and_preserve_witness :
    (freshMod emptyDb).state.kind = StateKind.clientLoading
    ∧ applyTrigger (freshMod emptyDb) .arenaLoaded 7
        = (freshMod emptyDb,
           some { methodName := "on_arena_loaded", className := "ClientLoadingState" }) :=
  ⟨rfl, ((illegal_triggers_raise_and_preserve (freshMod emptyDb) 7).1 rfl).1⟩

/-- Claim C7: re-firing the in-state trigger of the current state when
its start timestamp is already set (started in ClientLoading,
lobby_loaded in LobbyLoaded, arena_loaded in ArenaLoaded), or
vehicle_destroyed in ArenaLoaded when the destroy time is already
recorded, returns the controller completely unchanged: same state, same
timestamps, no extra cache record. -/
theorem in_state_triggers_idempotent :
    ∀ (m : Mod) (now : Nat),
      (m.state.kind = StateKind.clientLoading → m.state.data.start_timestamp > 0 →
          step m .clientStarted now = .ok m)
      ∧ (m.state.kind = StateKind.lobbyLoaded → m.state.data.start_timestamp > 0 →
          step m .lobbyLoaded now = .ok m)
      ∧ (m.state.kind = StateKind.arenaLoaded → m.state.data.start_timestamp > 0 →
          step m .arenaLoaded now = .ok m)
      ∧ (m.state.kind = StateKind.arenaLoaded → m.state.vehDestroyedTimestamp > 0 →
          step m .vehDestroyed now = .ok m) := by
  intro m now
  refine ⟨fun hk hs => ?_, fun hk hs => ?_, fun hk hs => ?_, fun hk hv => ?_⟩
  · simp [step, hk, startTimer, hs]
  · simp [step, hk, startTimer, hs]
  · simp [step, hk, startTimer, hs]
  · simp [step, hk, hv]

/-- Witness for C7: a controller in ClientLoadingState with the timer
started at 5 is unchanged by a second started trigger, and a controller
in ArenaLoadedState with a recorded destroy time is unchanged by a
second vehicle_destroyed trigger. -/
theorem in_state_triggers_idempotent_witness :
    (startedCL.state.kind = StateKind.clientLoading
      ∧ startedCL.state.data.start_timestamp > 0
      ∧ step startedCL .clientStarted 9 = .ok startedCL)
    ∧ (arenaVeh.state.kind = StateKind.arenaLoaded
      ∧ arenaVeh.state.vehDestroyedTimestamp > 0
      ∧ step arenaVeh .vehDestroyed 9 = .ok arenaVeh) :=
  ⟨⟨rfl, by decide, (in_state_triggers_idempotent startedCL 9).1 rfl (by decide)⟩,
   ⟨rfl, by decide, (in_state_triggers_idempotent arenaVeh 9).2.2.2 rfl (by decide)⟩⟩

/-- Counterexample for C4 as stated: a fresh controller shut down
immediately at wall-clock time 1000 ms flushes one record whose
persisted duration is 1000 (the shutdown timestamp), not zero: the
record has start_timestamp 0 and stop_timestamp equal to the shutdown
time. -/
theorem immediate_shutdown_nonzero_duration :
    (stateOnExit (freshMod emptyDb) 1000).state_history_cache.map
        (fun s => (game_state_data_to_table_row s.data).duration) = [(1000 : Int)]
    ∧ (1000 : Int) ≠ 0 := by
  refine ⟨rfl, by decide⟩

/-- Claim C4 (amended): on shutdown, on_exit stops the current phase's
timer if not already stopped and appends exactly the current phase's
record to the cache, so every session contributes at least one record;
for a fresh controller shut down immediately with no triggers fired,
that single record has start_timestamp 0 and stop_timestamp equal to
the shutdown time, so its persisted duration equals the shutdown
timestamp (not zero). -/
theorem shutdown_always_flushes_record :
    ∀ (m : Mod) (now : Nat),
      (stateOnExit m now).state_history_cache
          = m.state_history_cache ++ [stopTimer m.state now]
      ∧ (stopTimer m.state now).data.stop_timestamp
          = (if m.state.data.stop_timestamp > 0 then m.state.data.stop_timestamp else now)
      ∧ (stateOnExit (freshMod emptyDb) now).state_history_cache.map
          (fun s => (game_state_data_to_table_row s.data).duration) = [(now : Int)] := by
  intro m now
  refine ⟨rfl, stopTimer_stop m.state now, ?_⟩
  simp [stateOnExit, freshMod, mkState, stopTimer, game_state_data_to_table_row]

/-- Claim C1: with a non-empty cache and a reachable connection, if the
write step of Database.commit fails the commit reports failure
(is_ok = False), the durable rows are unchanged (the transaction is
never committed), and InGameTimeSpentMod.commit leaves the history
cache — and the whole controller — untouched; when the write step
succeeds, the rows are appended and only then is the cache cleared. -/
theorem failed_commit_keeps_store_and_cache :
    ∀ (m : Mod),
      m.state_history_cache ≠ [] →
      m.database.connect_fails = false →
      ((m.database.query_fails = true →
          db_commit m.database m.state_history_cache = .ok (m.database, false)
          ∧ mod_commit m = .ok m)
        ∧ (m.database.query_fails = false →
          mod_commit m = .ok { m with
            database := { m.database with
              rows := m.database.rows
                ++ m.state_history_cache.map (fun s => game_state_data_to_table_row s.data) }
            state_history_cache := [] })) := by
  intro m hne hc
  have hemp : m.state_history_cache.isEmpty = false := by
    simpa [List.isEmpty_iff] using hne
  constructor
  · intro hq
    constructor
    · simp [db_commit, hc, hq, hemp]
    · simp [mod_commit, db_commit, hc, hq, hemp]
  · intro hq
    simp [mod_commit, db_commit, hc, hq, hemp]

/-- Witness for C1: a controller holding one cached record over a
database whose write step fails: commit reports failure and the
controller, cache included, is unchanged. -/
theorem failed_commit_keeps_store_and_cache_witness :
    (stateOnExit (freshMod queryFailDb) 3).state_history_cache ≠ []
    ∧ (stateOnExit (freshMod queryFailDb) 3).database.connect_fails = false
    ∧ (stateOnExit (freshMod queryFailDb) 3).database.query_fails = true
    ∧ mod_commit (stateOnExit (freshMod queryFailDb) 3)
        = .ok (stateOnExit (freshMod queryFailDb) 3) :=
  ⟨by decide, rfl, rfl,
   ((failed_commit_keeps_store_and_cache (stateOnExit (freshMod queryFailDb) 3)
      (by decide) rfl).1 rfl).2⟩

/-! Aggregator helper lemmas: rows that never match a kind label leave
that kind's accumulators untouched. -/

lemma accum_no_loading (nowYM : Nat × Nat) (ym : Nat → Nat × Nat)
    (h : HistoricStats) (row : DataRow) (hrow : row.game_state ≠ STATE_LOADING) :
    (accum nowYM ym h row).all_time_avg_game_loading = h.all_time_avg_game_loading
    ∧ (accum nowYM ym h row).all_time_loading_counter = h.all_time_loading_counter
    ∧ (accum nowYM ym h row).curr_month_avg_game_loading = h.curr_month_avg_game_loading
    ∧ (accum nowYM ym h row).curr_month_loading_counter = h.curr_month_loading_counter := by
  simp only [accum]
  split_ifs <;> simp_all

lemma accum_no_lobby (nowYM : Nat × Nat) (ym : Nat → Nat × Nat)
    (h : HistoricStats) (row : DataRow) (hrow : row.game_state ≠ STATE_LOBBY) :
    (accum nowYM ym h row).all_time_avg_game_lobby = h.all_time_avg_game_lobby
    ∧ (accum nowYM ym h row).all_time_lobby_counter = h.all_time_lobby_counter
    ∧ (accum nowYM ym h row).curr_month_avg_game_lobby = h.curr_month_avg_game_lobby
    ∧ (accum nowYM ym h row).curr_month_lobby_counter = h.curr_month_lobby_counter := by
  simp only [accum]
  split_ifs <;> simp_all

lemma accum_no_arena (nowYM : Nat × Nat) (ym : Nat → Nat × Nat)
    (h : HistoricStats) (row : DataRow) (hrow : row.game_state ≠ STATE_ARENA) :
    (accum nowYM ym h row).all_time_avg_game_arena = h.all_time_avg_game_arena
    ∧ (accum nowYM ym h row).all_time_arena_counter = h.all_time_arena_counter
    ∧ (accum nowYM ym h row).curr_month_avg_game_arena = h.curr_month_avg_game_arena
    ∧ (accum nowYM ym h row).curr_month_arena_counter = h.curr_month_arena_counter := by
  simp only [accum]
  split_ifs <;> simp_all

lemma foldl_no_loading (nowYM : Nat × Nat) (ym : Nat → Nat × Nat) :
    ∀ (l : List DataRow) (h : HistoricStats),
      (∀ r ∈ l, r.game_state ≠ STATE_LOADING) →
      ((l.foldl (accum nowYM ym) h).all_time_avg_game_loading = h.all_time_avg_game_loading
       ∧ (l.foldl (accum nowYM ym) h).all_time_loading_counter = h.all_time_loading_counter
       ∧ (l.foldl (accum nowYM ym) h).curr_month_avg_game_loading
           = h.curr_month_avg_game_loading
       ∧ (l.foldl (accum nowYM ym) h).curr_month_loading_counter
           = h.curr_month_loading_counter) := by
  intro l
  induction l with
  | nil => intro h _; simp
  | cons r rest ih =>
      intro h hl
      have hr : r.game_state ≠ STATE_LOADING := hl r (by simp)
      have hrest : ∀ x ∈ rest, x.game_state ≠ STATE_LOADING :=
        fun x hx => hl x (by simp [hx])
      obtain ⟨a1, a2, a3, a4⟩ := accum_no_loading nowYM ym h r hr
      obtain ⟨b1, b2, b3, b4⟩ := ih (accum nowYM ym h r) hrest
      exact ⟨by rw [List.foldl_cons, b1, a1], by rw [List.foldl_cons, b2, a2],
             by rw [List.foldl_cons, b3, a3], by rw [List.foldl_cons, b4, a4]⟩

lemma foldl_no_lobby (nowYM : Nat × Nat) (ym : Nat → Nat × Nat) :
    ∀ (l : List DataRow) (h : HistoricStats),
      (∀ r ∈ l, r.game_state ≠ STATE_LOBBY) →
      ((l.foldl (accum nowYM ym) h).all_time_avg_game_lobby = h.all_time_avg_game_lobby
       ∧ (l.foldl (accum nowYM ym) h).all_time_lobby_counter = h.all_time_lobby_counter
       ∧ (l.foldl (accum nowYM ym) h).curr_month_avg_game_lobby
           = h.curr_month_avg_game_lobby
       ∧ (l.foldl (accum nowYM ym) h).curr_month_lobby_counter
           = h.curr_month_lobby_counter) := by
  intro l
  induction l with
  | nil => intro h _; simp
  | cons r rest ih =>
      intro h hl
      have hr : r.game_state ≠ STATE_LOBBY := hl r (by simp)
      have hrest : ∀ x ∈ rest, x.game_state ≠ STATE_LOBBY :=
        fun x hx => hl x (by simp [hx])
      obtain ⟨a1, a2, a3, a4⟩ := accum_no_lobby nowYM ym h r hr
      obtain ⟨b1, b2, b3, b4⟩ := ih (accum nowYM ym h r) hrest
      exact ⟨by rw [List.foldl_cons, b1, a1], by rw [List.foldl_cons, b2, a2],
             by rw [List.foldl_cons, b3, a3], by rw [List.foldl_cons, b4, a4]⟩

lemma foldl_no_arena (nowYM : Nat × Nat) (ym : Nat → Nat × Nat) :
    ∀ (l : List DataRow) (h : HistoricStats),
      (∀ r ∈ l, r.game_state ≠ STATE_ARENA) →
      ((l.foldl (accum nowYM ym) h).all_time_avg_game_arena = h.all_time_avg_game_arena
       ∧ (l.foldl (accum nowYM ym) h).all_time_arena_counter = h.all_time_arena_counter
       ∧ (l.foldl (accum nowYM ym) h).curr_month_avg_game_arena
           = h.curr_month_avg_game_arena
       ∧ (l.foldl (accum nowYM ym) h).curr_month_arena_counter
           = h.curr_month_arena_counter) := by
  intro l
  induction l with
  | nil => intro h _; simp
  | cons r rest ih =>
      intro h hl
      have hr : r.game_state ≠ STATE_ARENA := hl r (by simp)
      have hrest : ∀ x ∈ rest, x.game_state ≠ STATE_ARENA :=
        fun x hx => hl x (by simp [hx])
      obtain ⟨a1, a2, a3, a4⟩ := accum_no_arena nowYM ym h r hr
      obtain ⟨b1, b2, b3, b4⟩ := ih (accum nowYM ym h r) hrest
      exact ⟨by rw [List.foldl_cons, b1, a1], by rw [List.foldl_cons, b2, a2],
             by rw [List.foldl_cons, b3, a3], by rw [List.foldl_cons, b4, a4]⟩

/-- The four loading accumulators are all zero. -/
def LoadingZero (h : HistoricStats) : Prop :=
  h.all_time_avg_game_loading = 0 ∧ h.all_time_loading_counter = 0
  ∧ h.curr_month_avg_game_loading = 0 ∧ h.curr_month_loading_counter = 0

/-- The four lobby accumulators are all zero. -/
def LobbyZero (h : HistoricStats) : Prop :=
  h.all_time_avg_game_lobby = 0 ∧ h.all_time_lobby_counter = 0
  ∧ h.curr_month_avg_game_lobby = 0 ∧ h.curr_month_lobby_counter = 0

/-- The four arena accumulators are all zero. -/
def ArenaZero (h : HistoricStats) : Prop :=
  h.all_time_avg_game_arena = 0 ∧ h.all_time_arena_counter = 0
  ∧ h.curr_month_avg_game_arena = 0 ∧ h.curr_month_arena_counter = 0

lemma divLoading_of_zero (h : HistoricStats) (hc : h.all_time_loading_counter = 0) :
    divLoading h = h := by simp [divLoading, hc]

lemma divMonthLoading_of_zero (h : HistoricStats)
    (hc : h.curr_month_loading_counter = 0) : divMonthLoading h = h := by
  simp [divMonthLoading, hc]

lemma divLobby_of_zero (h : HistoricStats) (hc : h.all_time_lobby_counter = 0) :
    divLobby h = h := by simp [divLobby, hc]

lemma divMonthLobby_of_zero (h : HistoricStats)
    (hc : h.curr_month_lobby_counter = 0) : divMonthLobby h = h := by
  simp [divMonthLobby, hc]

lemma divArena_of_zero (h : HistoricStats) (hc : h.all_time_arena_counter = 0) :
    divArena h = h := by simp [divArena, hc]

lemma divMonthArena_of_zero (h : HistoricStats)
    (hc : h.curr_month_arena_counter = 0) : divMonthArena h = h := by
  simp [divMonthArena, hc]

lemma LoadingZero_divOverall (x : HistoricStats) (hz : LoadingZero x) :
    LoadingZero (divOverall x) := hz

lemma LoadingZero_divLoading (x : HistoricStats) (hz : LoadingZero x) :
    LoadingZero (divLoading x) := by
  rw [divLoading_of_zero x hz.2.1]; exact hz

lemma LoadingZero_divLobby (x : HistoricStats) (hz : LoadingZero x) :
    LoadingZero (divLobby x) := by
  simp only [divLobby]; split <;> exact hz

lemma LoadingZero_divArena (x : HistoricStats) (hz : LoadingZero x) :
    LoadingZero (divArena x) := by
  simp only [divArena]; split <;> exact hz

lemma LoadingZero_divMonthOverall (x : HistoricStats) (hz : LoadingZero x) :
    LoadingZero (divMonthOverall x) := by
  simp only [divMonthOverall]; split <;> exact hz

lemma LoadingZero_divMonthLoading (x : HistoricStats) (hz : LoadingZero x) :
    LoadingZero (divMonthLoading x) := by
  rw [divMonthLoading_of_zero x hz.2.2.2]; exact hz

lemma LoadingZero_divMonthLobby (x : HistoricStats) (hz : LoadingZero x) :
    LoadingZero (divMonthLobby x) := by
  simp only [divMonthLobby]; split <;> exact hz

lemma LoadingZero_divMonthArena (x : HistoricStats) (hz : LoadingZero x) :
    LoadingZero (divMonthArena x) := by
  simp only [divMonthArena]; split <;> exact hz

lemma LoadingZero_applyDivisions (h : HistoricStats) (hz : LoadingZero h) :
    LoadingZero (applyDivisions h) :=
  LoadingZero_divMonthArena _
    (LoadingZero_divMonthLobby _
      (LoadingZero_divMonthLoading _
        (LoadingZero_divMonthOverall _
          (LoadingZero_divArena _
            (LoadingZero_divLobby _
              (LoadingZero_divLoading _
                (LoadingZero_divOverall _ hz)))))))

lemma LobbyZero_divOverall (x : HistoricStats) (hz : LobbyZero x) :
    LobbyZero (divOverall x) := hz

lemma LobbyZero_divLoading (x : HistoricStats) (hz : LobbyZero x) :
    LobbyZero (divLoading x) := by
  simp only [divLoading]; split <;> exact hz

lemma LobbyZero_divLobby (x : HistoricStats) (hz : LobbyZero x) :
    LobbyZero (divLobby x) := by
  rw [divLobby_of_zero x hz.2.1]; exact hz

lemma LobbyZero_divArena (x : HistoricStats) (hz : LobbyZero x) :
    LobbyZero (divArena x) := by
  simp only [divArena]; split <;> exact hz

lemma LobbyZero_divMonthOverall (x : HistoricStats) (hz : LobbyZero x) :
    LobbyZero (divMonthOverall x) := by
  simp only [divMonthOverall]; split <;> exact hz

lemma LobbyZero_divMonthLoading (x : HistoricStats) (hz : LobbyZero x) :
    LobbyZero (divMonthLoading x) := by
  simp only [divMonthLoading]; split <;> exact hz

lemma LobbyZero_divMonthLobby (x : HistoricStats) (hz : LobbyZero x) :
    LobbyZero (divMonthLobby x) := by
  rw [divMonthLobby_of_zero x hz.2.2.2]; exact hz

lemma LobbyZero_divMonthArena (x : HistoricStats) (hz : LobbyZero x) :
    LobbyZero (divMonthArena x) := by
  simp only [divMonthArena]; split <;> exact hz

lemma LobbyZero_applyDivisions (h : HistoricStats) (hz : LobbyZero h) :
    LobbyZero (applyDivisions h) :=
  LobbyZero_divMonthArena _
    (LobbyZero_divMonthLobby _
      (LobbyZero_divMonthLoading _
        (LobbyZero_divMonthOverall _
          (LobbyZero_divArena _
            (LobbyZero_divLobby _
              (LobbyZero_divLoading _
                (LobbyZero_divOverall _ hz)))))))

lemma ArenaZero_divOverall (x : HistoricStats) (hz : ArenaZero x) :
    ArenaZero (divOverall x) := hz

lemma ArenaZero_divLoading (x : HistoricStats) (hz : ArenaZero x) :
    ArenaZero (divLoading x) := by
  simp only [divLoading]; split <;> exact hz

lemma ArenaZero_divLobby (x : HistoricStats) (hz : ArenaZero x) :
    ArenaZero (divLobby x) := by
  simp only [divLobby]; split <;> exact hz

lemma ArenaZero_divArena (x : HistoricStats) (hz : ArenaZero x) :
    ArenaZero (divArena x) := by
  rw [divArena_of_zero x hz.2.1]; exact hz

lemma ArenaZero_divMonthOverall (x : HistoricStats) (hz : ArenaZero x) :
    ArenaZero (divMonthOverall x) := by
  simp only [divMonthOverall]; split <;> exact hz

lemma ArenaZero_divMonthLoading (x : HistoricStats) (hz : ArenaZero x) :
    ArenaZero (divMonthLoading x) := by
  simp only [divMonthLoading]; split <;> exact hz

lemma ArenaZero_divMonthLobby (x : HistoricStats) (hz : ArenaZero x) :
    ArenaZero (divMonthLobby x) := by
  simp only [divMonthLobby]; split <;> exact hz

lemma ArenaZero_divMonthArena (x : HistoricStats) (hz : ArenaZero x) :
    ArenaZero (divMonthArena x) := by
  rw [divMonthArena_of_zero x hz.2.2.2]; exact hz

lemma ArenaZero_applyDivisions (h : HistoricStats) (hz : ArenaZero h) :
    ArenaZero (applyDivisions h) :=
  ArenaZero_divMonthArena _
    (ArenaZero_divMonthLobby _
      (ArenaZero_divMonthLoading _
        (ArenaZero_divMonthOverall _
          (ArenaZero_divArena _
            (ArenaZero_divLobby _
              (ArenaZero_divLoading _
                (ArenaZero_divOverall _ hz)))))))

lemma calculate_stats_unfold (nowYM : Nat × Nat) (ym : Nat → Nat × Nat)
    (h0 : HistoricStats) :
    calculate_stats nowYM ym h0
      = (if (h0.data.foldl (accum nowYM ym) h0).data.length > 0
         then applyDivisions (h0.data.foldl (accum nowYM ym) h0)
         else h0.data.foldl (accum nowYM ym) h0) := rfl

/-- Rows never labelled LOADING leave every loading statistic zero. -/
lemma calculate_stats_no_loading (nowYM : Nat × Nat) (ym : Nat → Nat × Nat)
    (h0 : HistoricStats)
    (hl : ∀ r ∈ h0.data, r.game_state ≠ STATE_LOADING)
    (hz : LoadingZero h0) : LoadingZero (calculate_stats nowYM ym h0) := by
  obtain ⟨f1, f2, f3, f4⟩ := foldl_no_loading nowYM ym h0.data h0 hl
  obtain ⟨z1, z2, z3, z4⟩ := hz
  have hzf : LoadingZero (h0.data.foldl (accum nowYM ym) h0) :=
    ⟨f1.trans z1, f2.trans z2, f3.trans z3, f4.trans z4⟩
  rw [calculate_stats_unfold]
  split
  · exact LoadingZero_applyDivisions _ hzf
  · exact hzf

/-- Rows never labelled LOBBY leave every lobby statistic zero. -/
lemma calculate_stats_no_lobby (nowYM : Nat × Nat) (ym : Nat → Nat × Nat)
    (h0 : HistoricStats)
    (hl : ∀ r ∈ h0.data, r.game_state ≠ STATE_LOBBY)
    (hz : LobbyZero h0) : LobbyZero (calculate_stats nowYM ym h0) := by
  obtain ⟨f1, f2, f3, f4⟩ := foldl_no_lobby nowYM ym h0.data h0 hl
  obtain ⟨z1, z2, z3, z4⟩ := hz
  have hzf : LobbyZero (h0.data.foldl (accum nowYM ym) h0) :=
    ⟨f1.trans z1, f2.trans z2, f3.trans z3, f4.trans z4⟩
  rw [calculate_stats_unfold]
  split
  · exact LobbyZero_applyDivisions _ hzf
  · exact hzf

/-- Rows never labelled ARENA leave every arena statistic zero. -/
lemma calculate_stats_no_arena (nowYM : Nat × Nat) (ym : Nat → Nat × Nat)
    (h0 : HistoricStats)
    (hl : ∀ r ∈ h0.data, r.game_state ≠ STATE_ARENA)
    (hz : ArenaZero h0) : ArenaZero (calculate_stats nowYM ym h0) := by
  obtain ⟨f1, f2, f3, f4⟩ := foldl_no_arena nowYM ym h0.data h0 hl
  obtain ⟨z1, z2, z3, z4⟩ := hz
  have hzf : ArenaZero (h0.data.foldl (accum nowYM ym) h0) :=
    ⟨f1.trans z1, f2.trans z2, f3.trans z3, f4.trans z4⟩
  rw [calculate_stats_unfold]
  split
  · exact ArenaZero_applyDivisions _ hzf
  · exact hzf

/-- Counterexample for C5 as stated: when the backing medium cannot be
read (the query step fails after a successful open), load_data does NOT
raise — it swallows the failure inside _execute_on_db and returns the
empty list, even though the store actually holds a row. -/
theorem read_failure_swallowed :
    oneRowDb.query_fails = true
    ∧ oneRowDb.rows ≠ []
    ∧ load_data oneRowDb = .ok [] :=
  ⟨rfl, by decide, rfl⟩

/-- Claim C5 (amended): load_data propagates a StorageUnavailable error
(and get_statistics propagates it unchanged) only when the backing
medium cannot be OPENED (sqlite3.connect fails, which happens outside
the try block); a valid-but-empty store yields the empty sequence, not
an error; but a read/query failure after a successful open is swallowed
and load_data returns the empty sequence instead of raising. -/
theorem load_data_error_contract :
    ∀ (db : Database) (nowYM : Nat × Nat) (ym : Nat → Nat × Nat) (m : Mod),
      (db.connect_fails = true → load_data db = .error .storageUnavailable)
      ∧ (m.database.connect_fails = true →
          get_historic_stats m nowYM ym = .error .storageUnavailable)
      ∧ (db.connect_fails = false → db.fresh_database = false → db.rows = [] →
          load_data db = .ok [])
      ∧ (db.connect_fails = false → db.fresh_database = false → db.query_fails = true →
          load_data db = .ok []) := by
  intro db nowYM ym m
  refine ⟨fun h => ?_, fun h => ?_, fun h1 h2 h3 => ?_, fun h1 h2 h3 => ?_⟩
  · simp only [load_data, h]
    split <;> rfl
  · have hl : load_data m.database = .error .storageUnavailable := by
      simp only [load_data, h]
      split <;> rfl
    simp only [get_historic_stats, hl]
  · by_cases hq : db.query_fails <;> simp [load_data, h1, h2, h3, hq]
  · simp [load_data, h1, h2, h3]

/-- Witness for C5 (amended): a database whose connection step fails
makes load_data and get_statistics raise the storage error. -/
theorem load_data_error_contract_witness :
    connFailDb.connect_fails = true
    ∧ load_data connFailDb = .error .storageUnavailable
    ∧ get_historic_stats (freshMod connFailDb) (0, 0) (fun _ => (0, 0))
        = .error .storageUnavailable :=
  ⟨rfl,
   (load_data_error_contract connFailDb (0, 0) (fun _ => (0, 0))
      (freshMod connFailDb)).1 rfl,
   (load_data_error_contract connFailDb (0, 0) (fun _ => (0, 0))
      (freshMod connFailDb)).2.1 rfl⟩

/-- The controller for the C6 failing input: its store holds one row of
duration 1000 dated in the current month. -/
def m6 : Mod := freshMod oneRowOkDb

/-- The fixed calendar-conversion function for the C6 failing input:
every stored timestamp falls in October 2026. -/
def ym6 : Nat → Nat × Nat := fun _ => (2026, 10)

/-- The aggregator state after the first get_statistics call on m6. -/
def h1val : HistoricStats :=
  { data := [rowL]
    all_time_avg_time_spent := 1000
    all_time_avg_game_loading := 1000
    all_time_loading_counter := 1
    all_time_avg_game_lobby := 0
    all_time_lobby_counter := 0
    all_time_avg_game_arena := 0
    all_time_arena_counter := 0
    curr_month_avg_time_spent := 1000
    curr_month_counter := 1
    curr_month_avg_game_loading := 1000
    curr_month_loading_counter := 1
    curr_month_avg_game_lobby := 0
    curr_month_lobby_counter := 0
    curr_month_avg_game_arena := 0
    curr_month_arena_counter := 0 }

/-- The aggregator state after the second get_statistics call on m6. -/
def h2val : HistoricStats :=
  { data := [rowL]
    all_time_avg_time_spent := 2000
    all_time_avg_game_loading := 1000
    all_time_loading_counter := 2
    all_time_avg_game_lobby := 0
    all_time_lobby_counter := 0
    all_time_avg_game_arena := 0
    all_time_arena_counter := 0
    curr_month_avg_time_spent := 1000
    curr_month_counter := 2
    curr_month_avg_game_loading := 1000
    curr_month_loading_counter := 2
    curr_month_avg_game_lobby := 0
    curr_month_lobby_counter := 0
    curr_month_avg_game_arena := 0
    curr_month_arena_counter := 0 }

/-- Evidence for C6 (code bug): the claim says two invocations of
get_statistics over a fixed row set and fixed date return equal values,
but the HistoricStats accumulators are never reset between calls, so
over one row of duration 1000 the first call reports an all-time
average of 1000 and the second call, on the same controller, reports
2000. -/
theorem stats_accumulate_across_calls :
    ((get_historic_stats m6 (2026, 10) ym6).toOption.map
        (fun p => p.2.all_time_avg_time_spent) = some 1000)
    ∧ (((get_historic_stats m6 (2026, 10) ym6).toOption.bind
          (fun p => (get_historic_stats p.1 (2026, 10) ym6).toOption)).map
        (fun p => p.2.all_time_avg_time_spent) = some 2000)
    ∧ (1000 : Rat) ≠ 2000 := by
  have sLobby : ("LOADING" : String) ≠ "LOBBY" := by decide
  have sArena : ("LOADING" : String) ≠ "ARENA" := by decide
  have hh1 : calculate_stats (2026, 10) ym6 { statsInit with data := [rowL] }
      = h1val := by
    norm_num [calculate_stats, accum, applyDivisions, divOverall, divLoading,
      divLobby, divArena, divMonthOverall, divMonthLoading, divMonthLobby,
      divMonthArena, statsInit, rowL, ym6, h1val, sLobby, sArena,
      STATE_LOADING, STATE_LOBBY, STATE_ARENA]
  have e1 : get_historic_stats m6 (2026, 10) ym6
      = .ok ({ m6 with historic_stats :=
                 calculate_stats (2026, 10) ym6 { statsInit with data := [rowL] } },
             calculate_stats (2026, 10) ym6 { statsInit with data := [rowL] }) := rfl
  rw [hh1] at e1
  have hh2 : calculate_stats (2026, 10) ym6 { h1val with data := [rowL] }
      = h2val := by
    norm_num [calculate_stats, accum, applyDivisions, divOverall, divLoading,
      divLobby, divArena, divMonthOverall, divMonthLoading, divMonthLobby,
      divMonthArena, h1val, rowL, ym6, h2val, sLobby, sArena,
      STATE_LOADING, STATE_LOBBY, STATE_ARENA]
  have e2 : get_historic_stats { m6 with historic_stats := h1val } (2026, 10) ym6
      = .ok ({ m6 with historic_stats :=
                 calculate_stats (2026, 10) ym6 { h1val with data := [rowL] } },
             calculate_stats (2026, 10) ym6 { h1val with data := [rowL] }) := rfl
  rw [hh2] at e2
  refine ⟨?_, ?_, by norm_num⟩
  · rw [e1]; rfl
  · rw [e1]
    show ((get_historic_stats { m6 with historic_stats := h1val } (2026, 10)
        ym6).toOption).map (fun p => p.2.all_time_avg_time_spent) = some 2000
    rw [e2]
    rfl

/-- A row that carries the LOBBY label (used as a store row without any
LOADING rows). -/
def rowLob : DataRow := { rowL with game_state := "LOBBY" }

/-- A healthy store holding exactly the given row. -/
def oneRowStore (r : DataRow) : Database :=
  { rows := [r], fresh_database := false, connect_fails := false, query_fails := false }

/-- Claim C8: on an empty store, get_statistics returns the all-zero
statistics record (every average and counter 0) without any division
error; and more generally any phase kind with zero matching rows keeps
all four of its statistics (all-time and current-month averages and
counters) at 0 rather than failing. -/
theorem empty_store_stats_all_zero :
    (∀ (nowYM : Nat × Nat) (ym : Nat → Nat × Nat) (m1 : Mod) (h : HistoricStats),
        get_historic_stats (freshMod emptyStoreDb) nowYM ym = .ok (m1, h) →
        h = statsInit)
    ∧ (∀ (nowYM : Nat × Nat) (ym : Nat → Nat × Nat) (l : List DataRow),
        (∀ r ∈ l, r.game_state ≠ STATE_LOADING) →
        LoadingZero (calculate_stats nowYM ym { statsInit with data := l }))
    ∧ (∀ (nowYM : Nat × Nat) (ym : Nat → Nat × Nat) (l : List DataRow),
        (∀ r ∈ l, r.game_state ≠ STATE_LOBBY) →
        LobbyZero (calculate_stats nowYM ym { statsInit with data := l }))
    ∧ (∀ (nowYM : Nat × Nat) (ym : Nat → Nat × Nat) (l : List DataRow),
        (∀ r ∈ l, r.game_state ≠ STATE_ARENA) →
        ArenaZero (calculate_stats nowYM ym { statsInit with data := l })) := by
  refine ⟨?_, ?_, ?_, ?_⟩
  · intro nowYM ym m1 h hget
    have e : get_historic_stats (freshMod emptyStoreDb) nowYM ym
        = .ok ({ freshMod emptyStoreDb with historic_stats := statsInit },
               statsInit) := rfl
    rw [e] at hget
    injection hget with hget
    exact (congrArg Prod.snd hget).symm
  · intro nowYM ym l hl
    exact calculate_stats_no_loading nowYM ym _ hl ⟨rfl, rfl, rfl, rfl⟩
  · intro nowYM ym l hl
    exact calculate_stats_no_lobby nowYM ym _ hl ⟨rfl, rfl, rfl, rfl⟩
  · intro nowYM ym l hl
    exact calculate_stats_no_arena nowYM ym _ hl ⟨rfl, rfl, rfl, rfl⟩

/-- Witness for C8: a concrete empty store yields exactly the zeroed
statistics record, and a store holding only a LOBBY row keeps every
loading statistic at 0. -/
theorem empty_store_stats_all_zero_witness :
    get_historic_stats (freshMod emptyStoreDb) (2026, 10) ym6
        = .ok ({ freshMod emptyStoreDb with historic_stats := statsInit }, statsInit)
    ∧ statsInit = statsInit
    ∧ (∀ r ∈ [rowLob], r.game_state ≠ STATE_LOADING)
    ∧ LoadingZero (calculate_stats (2026, 10) ym6 { statsInit with data := [rowLob] }) :=
  ⟨rfl,
   empty_store_stats_all_zero.1 (2026, 10) ym6
     { freshMod emptyStoreDb with historic_stats := statsInit } statsInit rfl,
   by decide,
   empty_store_stats_all_zero.2.1 (2026, 10) ym6 [rowLob] (by decide)⟩

/-- Claim C9: for a store holding exactly one row of duration 1000
whose stored timestamp converts to the current year and month,
get_statistics reports 1000 as both the all-time and the current-month
average for that row's phase kind. -/
theorem single_row_month_averages :
    ∀ (nowYM : Nat × Nat) (ym : Nat → Nat × Nat) (r : DataRow) (m1 : Mod)
      (h : HistoricStats),
      ym r.date = nowYM →
      r.duration = 1000 →
      get_historic_stats (freshMod (oneRowStore r)) nowYM ym = .ok (m1, h) →
      ((r.game_state = STATE_LOADING →
          h.all_time_avg_game_loading = 1000 ∧ h.curr_month_avg_game_loading = 1000)
       ∧ (r.game_state = STATE_LOBBY →
          h.all_time_avg_game_lobby = 1000 ∧ h.curr_month_avg_game_lobby = 1000)
       ∧ (r.game_state = STATE_ARENA →
          h.all_time_avg_game_arena = 1000 ∧ h.curr_month_avg_game_arena = 1000)) := by
  intro nowYM ym r m1 h hym hdur hget
  have e : get_historic_stats (freshMod (oneRowStore r)) nowYM ym
      = .ok ({ freshMod (oneRowStore r) with
               historic_stats := calculate_stats nowYM ym { statsInit with data := [r] } },
             calculate_stats nowYM ym { statsInit with data := [r] }) := rfl
  rw [e] at hget
  injection hget with hget
  have hh : h = calculate_stats nowYM ym { statsInit with data := [r] } :=
    (congrArg Prod.snd hget).symm
  subst hh
  obtain ⟨rid, rdate, rdur, rgs, rp1, rp2, rp3, rp4⟩ := r
  replace hym : ym rdate = nowYM := hym
  replace hdur : rdur = 1000 := hdur
  subst hdur
  refine ⟨fun hgs => ?_, fun hgs => ?_, fun hgs => ?_⟩ <;>
    replace hgs : rgs = _ := hgs <;> subst hgs
  · norm_num [calculate_stats, accum, applyDivisions, divOverall, divLoading,
      divLobby, divArena, divMonthOverall, divMonthLoading, divMonthLobby,
      divMonthArena, statsInit, hym, STATE_LOADING, STATE_LOBBY, STATE_ARENA,
      show ("LOADING" : String) ≠ "LOBBY" from by decide,
      show ("LOADING" : String) ≠ "ARENA" from by decide]
  · norm_num [calculate_stats, accum, applyDivisions, divOverall, divLoading,
      divLobby, divArena, divMonthOverall, divMonthLoading, divMonthLobby,
      divMonthArena, statsInit, hym, STATE_LOADING, STATE_LOBBY, STATE_ARENA,
      show ("LOBBY" : String) ≠ "LOADING" from by decide,
      show ("LOBBY" : String) ≠ "ARENA" from by decide]
  · norm_num [calculate_stats, accum, applyDivisions, divOverall, divLoading,
      divLobby, divArena, divMonthOverall, divMonthLoading, divMonthLobby,
      divMonthArena, statsInit, hym, STATE_LOADING, STATE_LOBBY, STATE_ARENA,
      show ("ARENA" : String) ≠ "LOADING" from by decide,
      show ("ARENA" : String) ≠ "LOBBY" from by decide]

/-- The pair returned by get_statistics on the concrete one-row store
of the C9 witness. -/
def c9pair : Mod × HistoricStats :=
  (get_historic_stats (freshMod oneRowOkDb) (2026, 10) ym6).toOption.getD
    (freshMod oneRowOkDb, statsInit)

/-- Witness for C9: the concrete LOADING row of duration 1000 dated in
the current month yields all-time and current-month loading averages of
1000. -/
theorem single_row_month_averages_witness :
    ym6 rowL.date = (2026, 10)
    ∧ rowL.duration = 1000
    ∧ rowL.game_state = STATE_LOADING
    ∧ get_historic_stats (freshMod (oneRowStore rowL)) (2026, 10) ym6
        = .ok (c9pair.1, c9pair.2)
    ∧ (c9pair.2.all_time_avg_game_loading = 1000
       ∧ c9pair.2.curr_month_avg_game_loading = 1000) :=
  ⟨rfl, rfl, rfl, rfl,
   (single_row_month_averages (2026, 10) ym6 rowL c9pair.1 c9pair.2
      rfl rfl rfl).1 rfl⟩

/-- Every reachable controller carries well-formed state names: the
current state is named after its class and every cached record is named
after one of the three state classes. -/
def NamedOk (m : Mod) : Prop :=
  m.state.data.state_name = stateName m.state.kind
  ∧ ∀ s ∈ m.state_history_cache, ∃ k, s.data.state_name = stateName k

lemma namedOk_fresh (db : Database) : NamedOk (freshMod db) :=
  ⟨rfl, by simp [freshMod]⟩

lemma step_namedOk {m m1 : Mod} {tr : Trigger} {t : Nat}
    (hn : NamedOk m) (h : step m tr t = .ok m1) : NamedOk m1 := by
  obtain ⟨h1, h2⟩ := hn
  cases hk : m.state.kind <;> cases tr <;> simp [step, hk] at h
  all_goals subst h
  case intro.arenaLoaded.vehDestroyed =>
    split
    · exact ⟨h1, h2⟩
    · exact ⟨h1.trans (by rw [hk]), h2⟩
  all_goals try exact ⟨by simp [h1], h2⟩
  all_goals (
    refine ⟨by simp [transition, mkState], ?_⟩
    intro s hs
    simp only [transition_cache, List.mem_append, List.mem_singleton] at hs
    rcases hs with hs | hs
    · exact h2 s hs
    · subst hs
      exact ⟨m.state.kind, by simp [h1]⟩)

lemma run_namedOk :
    ∀ (trs : List (Trigger × Nat)) (m m1 : Mod),
      NamedOk m → run m trs = .ok m1 → NamedOk m1 := by
  intro trs
  induction trs with
  | nil =>
      intro m m1 hn h
      simp only [run] at h
      injection h with h
      subst h
      exact hn
  | cons p rest ih =>
      intro m m1 hn h
      obtain ⟨tr, t⟩ := p
      simp only [run] at h
      cases hs : step m tr t with
      | error e => rw [hs] at h; cases h
      | ok m2 =>
          rw [hs] at h
          exact ih m2 m1 (step_namedOk hn hs) h

lemma namedOk_onExit (m : Mod) (now : Nat) (hn : NamedOk m) :
    ∀ s ∈ (stateOnExit m now).state_history_cache,
      ∃ k, s.data.state_name = stateName k := by
  obtain ⟨h1, h2⟩ := hn
  intro s hs
  simp only [stateOnExit_cache, List.mem_append, List.mem_singleton] at hs
  rcases hs with hs | hs
  · exact h2 s hs
  · subst hs
    exact ⟨m.state.kind, by simp [h1]⟩

/-- Claim C10: every record the machine closes (over any legal trigger
run followed by shutdown) is named with one of the three machine state
names; none of these names equals any of the aggregator's per-kind
labels LOADING, LOBBY, ARENA; consequently, feeding the rows persisted
from such a history to the aggregator leaves every per-kind counter and
per-kind average at 0. -/
theorem machine_rows_never_match_aggregator_labels :
    ∀ (db : Database) (trs : List (Trigger × Nat)) (m : Mod) (now : Nat),
      run (freshMod db) trs = .ok m →
      ((∀ s ∈ (stateOnExit m now).state_history_cache,
          s.data.state_name = NAME_CLIENT_LOADING
          ∨ s.data.state_name = NAME_LOBBY_LOADED
          ∨ s.data.state_name = NAME_ARENA_LOADED)
       ∧ (∀ n : String,
            n = NAME_CLIENT_LOADING ∨ n = NAME_LOBBY_LOADED ∨ n = NAME_ARENA_LOADED →
            n ≠ STATE_LOADING ∧ n ≠ STATE_LOBBY ∧ n ≠ STATE_ARENA)
       ∧ (∀ (nowYM : Nat × Nat) (ym : Nat → Nat × Nat),
            LoadingZero (calculate_stats nowYM ym { statsInit with
              data := (stateOnExit m now).state_history_cache.map
                (fun s => game_state_data_to_table_row s.data) })
            ∧ LobbyZero (calculate_stats nowYM ym { statsInit with
              data := (stateOnExit m now).state_history_cache.map
                (fun s => game_state_data_to_table_row s.data) })
            ∧ ArenaZero (calculate_stats nowYM ym { statsInit with
              data := (stateOnExit m now).state_history_cache.map
                (fun s => game_state_data_to_table_row s.data) }))) := by
  intro db trs m now hrun
  have hn := run_namedOk trs (freshMod db) m (namedOk_fresh db) hrun
  have hnames := namedOk_onExit m now hn
  refine ⟨?_, ?_, ?_⟩
  · intro s hs
    obtain ⟨k, hk⟩ := hnames s hs
    cases k <;> simp [hk, stateName]
  · intro n h3
    rcases h3 with h | h | h <;> subst h <;> exact ⟨by decide, by decide, by decide⟩
  · intro nowYM ym
    have hno : ∀ r ∈ (stateOnExit m now).state_history_cache.map
        (fun s => game_state_data_to_table_row s.data),
        r.game_state ≠ STATE_LOADING ∧ r.game_state ≠ STATE_LOBBY
          ∧ r.game_state ≠ STATE_ARENA := by
      intro r hr
      simp only [List.mem_map] at hr
      obtain ⟨s, hs, rfl⟩ := hr
      obtain ⟨k, hk⟩ := hnames s hs
      have hg : (game_state_data_to_table_row s.data).game_state
          = s.data.state_name := rfl
      rw [hg, hk]
      cases k <;> exact ⟨by decide, by decide, by decide⟩
    exact ⟨calculate_stats_no_loading nowYM ym _ (fun r hr => (hno r hr).1)
             ⟨rfl, rfl, rfl, rfl⟩,
           calculate_stats_no_lobby nowYM ym _ (fun r hr => (hno r hr).2.1)
             ⟨rfl, rfl, rfl, rfl⟩,
           calculate_stats_no_arena nowYM ym _ (fun r hr => (hno r hr).2.2)
             ⟨rfl, rfl, rfl, rfl⟩⟩

/-- Witness for C10: the scenario-B history, once persisted, leaves
every per-kind statistic of the aggregator at zero. -/
theorem machine_rows_never_match_aggregator_labels_witness :
    run (freshMod emptyDb) trsB = .ok modB
    ∧ LoadingZero (calculate_stats (2026, 10) ym6 { statsInit with
        data := (stateOnExit modB 4).state_history_cache.map
          (fun s => game_state_data_to_table_row s.data) })
    ∧ LobbyZero (calculate_stats (2026, 10) ym6 { statsInit with
        data := (stateOnExit modB 4).state_history_cache.map
          (fun s => game_state_data_to_table_row s.data) })
    ∧ ArenaZero (calculate_stats (2026, 10) ym6 { statsInit with
        data := (stateOnExit modB 4).state_history_cache.map
          (fun s => game_state_data_to_table_row s.data) }) :=
  ⟨rfl,
   ((machine_rows_never_match_aggregator_labels emptyDb trsB modB 4 rfl).2.2
      (2026, 10) ym6).1,
   ((machine_rows_never_match_aggregator_labels emptyDb trsB modB 4 rfl).2.2
      (2026, 10) ym6).2.1,
   ((machine_rows_never_match_aggregator_labels emptyDb trsB modB 4 rfl).2.2
      (2026, 10) ym6).2.2⟩

end WotMods
